import Mathlib

/-!
Shallow embedding of the `rockit.camera.scicam` camera daemon
(`scicamprocess.py`, `outputprocess.py`, `constants.py`) used to verify the
specification claims about the serial protocol, the acquisition state
machine, the capture loop, the frame-buffer pool and the output worker.
-/

set_option linter.unusedVariables false

/-! ## Status codes (`constants.py`) -/

namespace CommandStatus

def Succeeded : Nat := 0

def Failed : Nat := 1

def CameraNotIdle : Nat := 11

def CameraNotAcquiring : Nat := 15

def TemperatureOutsideLimits : Nat := 20

end CommandStatus

/-! ## Camera runtime state (`SciCamInterface.__init__`)

Mutable fields of `SciCamInterface` that the command handlers read and
write.  `acquiring` models `is_acquiring` (the acquisition thread being
alive); `processingStopSignal` models `processing_stop_signal.value`, the
flag shared with the output workers. -/

structure CameraState where
  coolerMode : Nat
  coolerSetpoint : Option ℚ
  coolerVoltage : ℚ
  sensorTemperature : ℚ
  digpcbTemperature : ℚ
  senspcbTemperature : ℚ
  caseTemperature : ℚ
  exposureTime : ℚ
  sequenceFrameLimit : Nat
  sequenceFrameCount : Nat
  stopAcquisition : Bool
  acquiring : Bool
  processingStopSignal : Bool
  deriving DecidableEq, Repr

/-- Serial exchanges issued by `set_target_temperature`.  `tempSet v`
stands for the formatted command string `TEMP:SENS:SET {v}` (the code
formats `self._cooler_setpoint`, which may be `None`). -/
inductive SerialMsg where
  | tempSet (v : Option ℚ)
  | tecEnableOn
  | tecEnableOff
  deriving DecidableEq, Repr

/-- Embedding of `SciCamInterface.set_target_temperature` (scicamprocess.py
lines 425-446).  `serialOk` tells whether the serial exchanges inside the
`try` block all succeed; the returned list is the exchanges the code
attempts to issue, in order.  Result: (new state, issued commands, status
code). -/
def set_target_temperature (s : CameraState) (temperature : Option ℚ) (serialOk : Bool) :
    CameraState × List SerialMsg × Nat :=
  if (match temperature with
      | some t => decide (t < -65) || decide (t > 25)
      | none => false : Bool) then
    (s, [], CommandStatus.TemperatureOutsideLimits)
  else
    let msgs := match temperature with
      | some _ => [SerialMsg.tempSet s.coolerSetpoint, SerialMsg.tecEnableOn]
      | none => [SerialMsg.tecEnableOff]
    if serialOk then
      ({ s with coolerSetpoint := temperature }, msgs, CommandStatus.Succeeded)
    else
      (s, msgs, CommandStatus.Failed)

/-- Embedding of `SciCamInterface.stop_sequence` (scicamprocess.py lines
486-498).  Result: (new state, status code). -/
def stop_sequence (s : CameraState) : CameraState × Nat :=
  if !s.acquiring || s.stopAcquisition then
    (s, CommandStatus.CameraNotAcquiring)
  else
    ({ s with sequenceFrameCount := 0, stopAcquisition := true },
     CommandStatus.Succeeded)

/-- Embedding of `SciCamInterface.start_sequence` (scicamprocess.py lines
459-484).  Launching the acquisition thread is modelled by setting
`acquiring`.  Result: (new state, status code). -/
def start_sequence (s : CameraState) (count : Nat) : CameraState × Nat :=
  if s.acquiring then
    (s, CommandStatus.CameraNotIdle)
  else
    ({ s with sequenceFrameLimit := count,
              sequenceFrameCount := 0,
              stopAcquisition := false,
              processingStopSignal := false,
              acquiring := true },
     CommandStatus.Succeeded)

/-! ## Serial command channel (`SciCamInterface._serial_command`,
scicamprocess.py lines 144-182)

Strings are modelled as lists of characters so that every operation is
kernel-reducible.  `splitCR` is Python's `str.split` on a single-character
separator; `serialPoll` is the accumulation loop polling
`pxd_serialRead`; `serialClassify` is the echo / error / value
classification of the accumulated response. -/

/-- Python `response.split('\r')`: split a character list on `'\r'`,
keeping empty pieces. -/
def splitCR : List Char → List (List Char)
  | [] => [[]]
  | c :: rest =>
    if c = '\r' then [] :: splitCR rest
    else
      match splitCR rest with
      | [] => [[c]]
      | l :: ls => (c :: l) :: ls

/-- Python `str.startswith`: `listStartsWith p l` holds when `p` is an
initial segment of `l`. -/
def listStartsWith : List Char → List Char → Bool
  | [], _ => true
  | _ :: _, [] => false
  | p :: ps, c :: cs => p = c && listStartsWith ps cs

/-- The error marker `ERR:` checked by `_serial_command`. -/
def errMarker : List Char := ['E', 'R', 'R', ':']

/-- Outcome of one `_serial_command` exchange.  Each constructor stands
for one exit of the source function: `timeout` for the timeout
exception, `echoMismatch` for the echo-mismatch exception, `deviceError`
for the `ERR:` exception, `noValue` for the `return None` branch,
`value` for the `return response[1]` branch, and `malformed` for the
uncaught `IndexError` raised when the split response has no second line. -/
inductive SerialResult where
  | timeout
  | echoMismatch (got : List Char)
  | deviceError (msg : List Char)
  | noValue
  | value (v : List Char)
  | malformed
  deriving DecidableEq, Repr

/-- Classification of an accumulated response (scicamprocess.py lines
172-182): split on carriage returns, require the first line to echo the
command, then interpret the second line. -/
def serialClassify (command response : List Char) : SerialResult :=
  match splitCR response with
  | [] => SerialResult.malformed
  | first :: rest =>
    if first ≠ command then SerialResult.echoMismatch first
    else
      match rest with
      | [] => SerialResult.malformed
      | second :: _ =>
        if second = ['>'] then SerialResult.noValue
        else if listStartsWith errMarker second then SerialResult.deviceError second
        else SerialResult.value second

/-- The accumulation loop (scicamprocess.py lines 159-170): each poll
iteration reads one chunk from `chunks` (an empty chunk models
`available = 0`), appends it to the accumulated response, and stops when
a chunk just arrived and the response now ends with the prompt `'>'`.
`fuel` is the number of poll iterations before `timeout` elapses; `none`
is the timeout exception. -/
def serialPoll (acc : List Char) (chunks : List (List Char)) (fuel : Nat) :
    Option (List Char) :=
  match fuel with
  | 0 => none
  | fuel + 1 =>
    let c := chunks.headD []
    let acc2 := acc ++ c
    if c ≠ [] ∧ acc2.getLast? = some '>' then some acc2
    else serialPoll acc2 chunks.tail fuel

/-- Embedding of the whole `_serial_command` call: poll until the prompt
arrives or the timeout fuel runs out, then classify the response. -/
def serialCommand (command : List Char) (chunks : List (List Char)) (fuel : Nat) :
    SerialResult :=
  match serialPoll [] chunks fuel with
  | none => SerialResult.timeout
  | some response => serialClassify command response

/-! ## Shared acquisition / processing state

The capture loop (`__run_exposure_sequence`, scicamprocess.py lines
250-314) and the output workers (`output_process`, outputprocess.py lines
58-150) communicate through the free-offset queue
(`processing_framebuffer_offsets`), the queue of frame records
(`processing_queue`) and the shared stop signal
(`processing_stop_signal`).  `SysState` gathers those shared objects
together with the capture-local counters and the set of files the worker
has durably written. -/

/-- The part of a frame record pushed into `processing_queue` that the
claims depend on: the buffer slot offset (`data_offset`) and the running
exposure counter used to build the output filename. -/
structure FrameRecord where
  dataOffset : Nat
  exposureCount : Nat
  deriving DecidableEq, Repr

structure SysState where
  freeQueue : List Nat
  processing : List FrameRecord
  frameCount : Nat
  exposureCount : Nat
  stopAcq : Bool
  stopSignal : Bool
  savedFiles : List (List Char)
  deriving DecidableEq, Repr

/-- External events observed by one capture-loop iteration:
`externalStop` is `stop_sequence` setting `_stop_acquisition` during the
frame wait, `externalSignal` is a worker raising
`processing_stop_signal`, and `readoutOk` is the sign of the
`pxd_readushort` return value. -/
structure IterEnv where
  externalStop : Bool
  externalSignal : Bool
  readoutOk : Bool
  deriving DecidableEq, Repr

/-- A poll iteration where nothing happens and the readout succeeds. -/
def IterEnv.benign : IterEnv :=
  { externalStop := false, externalSignal := false, readoutOk := true }

/-- One iteration of the capture `while` loop (scicamprocess.py lines
250-314), entered with the loop condition already checked.  The source
order is mirrored: pop a free offset (an empty queue blocks; modelled as
a stall), observe stop flags during the frame wait, on a stop return the
unused slot and break, on a failed `pxd_readushort` `continue` without
returning the popped offset, otherwise push the frame record, increment
the counters and set `_stop_acquisition` once a nonzero frame limit is
reached. -/
def captureIter (limit : Nat) (s : SysState) (env : IterEnv) : SysState :=
  match s.freeQueue with
  | [] => s
  | off :: rest =>
    let stopA := s.stopAcq || env.externalStop
    let stopS := s.stopSignal || env.externalSignal
    if stopA || stopS then
      { s with freeQueue := rest ++ [off], stopAcq := stopA, stopSignal := stopS }
    else if !env.readoutOk then
      { s with freeQueue := rest, stopAcq := stopA, stopSignal := stopS }
    else
      let s2 := { s with
        freeQueue := rest,
        processing := s.processing ++ [⟨off, s.exposureCount⟩],
        frameCount := s.frameCount + 1,
        exposureCount := s.exposureCount + 1 }
      if 0 < limit ∧ limit ≤ s2.frameCount then { s2 with stopAcq := true } else s2

/-- The capture `while` loop driver: test the loop condition
`not self._stop_acquisition and not self._processing_stop_signal.value`,
then run one iteration.  `fuel` bounds the number of iterations
considered; `envs` supplies each iteration's external events (defaulting
to benign ones when exhausted). -/
def captureLoop (limit fuel : Nat) (s : SysState) (envs : List IterEnv) : SysState :=
  match fuel with
  | 0 => s
  | fuel + 1 =>
    if s.stopAcq || s.stopSignal then s
    else captureLoop limit fuel (captureIter limit s (envs.headD IterEnv.benign)) envs.tail

/-- The capture loop has observed a stop and will exit at the next
condition check. -/
def loopDone (s : SysState) : Bool :=
  s.stopAcq || s.stopSignal

/-- All buffer-pool offsets with an owner recorded in the shared state:
those in the free queue and those referenced by in-flight frame records. -/
def poolOffsets (s : SysState) : List Nat :=
  s.freeQueue ++ s.processing.map FrameRecord.dataOffset

/-! ## Output worker (`output_process`, outputprocess.py lines 49-150) -/

/-- Zero-pad a digit list on the left to width `w`. -/
def padZero (w : Nat) (digits : List Char) : List Char :=
  List.replicate (w - digits.length) '0' ++ digits

/-- The output filename `f'{camera_id}-{exposure_count:08d}.fits'`
(outputprocess.py line 129). -/
def fitsFilename (camId : List Char) (count : Nat) : List Char :=
  camId ++ '-' :: (padZero 8 (Nat.toDigits 10 count) ++ ['.', 'f', 'i', 't', 's'])

/-- Failure injection for one worker iteration: whether the
write-then-rename save succeeds and whether the pipeline handoff
succeeds. -/
structure WorkerEnv where
  saveOk : Bool
  handoffOk : Bool
  deriving DecidableEq, Repr

/-- One iteration of the worker `while True` loop (outputprocess.py
lines 58-150): dequeue a frame record (an empty queue blocks; modelled
as a stall), copy the pixels out and immediately return the slot offset
to the free queue, save the file with the write-then-rename discipline
(a failure sets the stop signal, logs and `continue`s), then hand the
frame to the pipeline (a failure sets the stop signal and logs; the
saved file is untouched).  The loop body never exits the `while True`. -/
def workerIter (camId : List Char) (s : SysState) (env : WorkerEnv) : SysState :=
  match s.processing with
  | [] => s
  | frame :: rest =>
    let s1 := { s with
      processing := rest,
      freeQueue := s.freeQueue ++ [frame.dataOffset] }
    if env.saveOk then
      let s2 := { s1 with
        savedFiles := s1.savedFiles ++ [fitsFilename camId frame.exposureCount] }
      if env.handoffOk then s2 else { s2 with stopSignal := true }
    else
      { s1 with stopSignal := true }

/-- The worker `while True` driver: `fuel` iterations with per-iteration
failure injection from `envs`. -/
def workerLoop (camId : List Char) (fuel : Nat) (s : SysState) (envs : List WorkerEnv) :
    SysState :=
  match fuel with
  | 0 => s
  | fuel + 1 =>
    workerLoop camId fuel (workerIter camId s (envs.headD ⟨true, true⟩)) envs.tail

/-! ## Exception flow of the capture thread (`__run_exposure_sequence`,
scicamprocess.py lines 184-335)

The function is one `try ... except Exception ... finally ...` block.
`tryExceptFinally` is the Python semantics of that statement for a body
that either returns or raises: the handler receives a body exception,
and an exception raised inside the `finally` suite replaces any pending
outcome and propagates to the caller. -/

/-- Exceptions that the embedded code can raise. -/
inductive PyErr where
  | timeoutErr
  | echoErr
  | deviceErr
  | indexErr
  | ioErr
  deriving DecidableEq, Repr

/-- Python `try/except/finally` for a body with no return value:
run the body, let the handler consume a body exception, then run the
`finally` suite; an exception from the `finally` suite replaces the
pending outcome. -/
def tryExceptFinally (body : Except PyErr Unit) (handler : PyErr → Except PyErr Unit)
    (final : Except PyErr Unit) : Except PyErr Unit :=
  let handled := match body with
    | Except.ok u => Except.ok u
    | Except.error e => handler e
  match final with
  | Except.ok _ => handled
  | Except.error e => Except.error e

/-- Conversion of a serial exchange outcome into raised-or-returned
form, as `_serial_command` raises on timeout, echo mismatch and device
error (and `response[1]` raises `IndexError` on a one-line response). -/
def serialResultToExc : SerialResult → Except PyErr (Option (List Char))
  | SerialResult.timeout => Except.error PyErr.timeoutErr
  | SerialResult.echoMismatch _ => Except.error PyErr.echoErr
  | SerialResult.deviceError _ => Except.error PyErr.deviceErr
  | SerialResult.malformed => Except.error PyErr.indexErr
  | SerialResult.noValue => Except.ok none
  | SerialResult.value v => Except.ok (some v)

/-- The exit cleanup of the capture thread (the `finally` suite,
scicamprocess.py lines 317-335): disable the trigger over the serial
channel, then persist the exposure counter; the buffer-pool drain and
the final logging only block, they do not raise. -/
def captureCleanup (trigOff saveCounts : Except PyErr Unit) : Except PyErr Unit :=
  match trigOff with
  | Except.ok _ => saveCounts
  | Except.error e => Except.error e

/-- The exception skeleton of `__run_exposure_sequence`: the whole body
runs under `try`, `except Exception` catches any body exception and only
prints it, and the cleanup runs in `finally`. -/
def runExposureSequence (body trigOff saveCounts : Except PyErr Unit) : Except PyErr Unit :=
  tryExceptFinally body (fun e => Except.ok ()) (captureCleanup trigOff saveCounts)

/-! ## Timestamp decoding (`output_process`, outputprocess.py lines 66-70)

The frame's first row carries the capture time: pixel words 3, 4 and 5
(0-indexed) hold the encoded second count and pixel word 2 holds a
fractional count in units of 62.5 microseconds.  `data` is a
`dtype=np.uint16` array, so each scalar read from it is a uint16, and
numpy keeps the whole shift/or expression of line 68 in uint16: each
shift result wraps modulo 2^16 (a left shift by 16 or more bits of a
uint16 yields 0, whether through the wrap or through numpy's guard on
over-wide shift counts).  Times are rationals counting seconds since
the Unix epoch. -/

/-- Reduction to numpy's uint16 range. -/
def u16 (v : Nat) : Nat := v % 2 ^ 16

/-- Line 68: `seconds = (data[0, 5] << 22) | (data[0, 4] << 10) | (data[0, 3] >> 2)`
on uint16 scalars: every pixel word is a uint16 and every shift result
is reduced to uint16. -/
def decodeSeconds (p3 p4 p5 : Nat) : Nat :=
  u16 (u16 p5 <<< 22) ||| u16 (u16 p4 <<< 10) ||| (u16 p3 >>> 2)

/-- Line 69: `date_start = Time(seconds, format='unix') + 62.5e-6 * data[0, 2] * u.s`. -/
def decodeDateStart (p2 p3 p4 p5 : Nat) : ℚ :=
  (decodeSeconds p3 p4 p5 : ℚ) + (625 / 10 ^ 7) * p2

/-- Line 70: `date_end = date_start + frame['exposure'] * u.s`. -/
def decodeDateEnd (p2 p3 p4 p5 : Nat) (exposure : ℚ) : ℚ :=
  decodeDateStart p2 p3 p4 p5 + exposure

/-! ## Concrete states used by witnesses and counterexamples -/

/-- A camera state mid-sequence: cooler locked at -20, five frames
acquired, acquisition thread alive, no stop requested. -/
def cameraStateExample : CameraState :=
  { coolerMode := 3,
    coolerSetpoint := some (-20),
    coolerVoltage := 2,
    sensorTemperature := -20,
    digpcbTemperature := 15,
    senspcbTemperature := 10,
    caseTemperature := 12,
    exposureTime := 1,
    sequenceFrameLimit := 0,
    sequenceFrameCount := 5,
    stopAcquisition := false,
    acquiring := true,
    processingStopSignal := false }

/-- A shared state at the start of a sequence: two free slots at offsets
0 and 9216, nothing in flight, running exposure counter at 17. -/
def sysStateExample : SysState :=
  { freeQueue := [0, 9216],
    processing := [],
    frameCount := 0,
    exposureCount := 17,
    stopAcq := false,
    stopSignal := false,
    savedFiles := [] }

/-- An iteration in which `pxd_readushort` returns a negative error
code and no stop is requested. -/
def readoutFailEnv : IterEnv :=
  { externalStop := false, externalSignal := false, readoutOk := false }

/-- The `SENS:TRIG OFF` command issued by the capture thread's cleanup. -/
def trigOffCommand : List Char :=
  ['S', 'E', 'N', 'S', ':', 'T', 'R', 'I', 'G', ' ', 'O', 'F', 'F']

/-- A one-character command used to exercise the response classifier. -/
def commandA : List Char := ['A']

/-- A shared state with one frame record (slot offset 0, exposure
counter 42) waiting for the output worker. -/
def workerSysExample : SysState :=
  { freeQueue := [],
    processing := [⟨0, 42⟩],
    frameCount := 1,
    exposureCount := 43,
    stopAcq := false,
    stopSignal := false,
    savedFiles := [] }

/-- The camera identifier used in worker examples. -/
def camIdExample : List Char := ['c', 'a', 'm']

/-! ## Theorems -/

/-- C6: for every temperature value outside the interval [-65, 25],
`set_target_temperature` returns `TemperatureOutsideLimits`, issues no
serial command, and leaves every field of the camera runtime state
(including the stored cooler set point) unchanged. -/
theorem set_target_temperature_rejects_outside_limits (s : CameraState) (v : ℚ)
    (serialOk : Bool) (h : v < -65 ∨ v > 25) :
    set_target_temperature s (some v) serialOk =
      (s, [], CommandStatus.TemperatureOutsideLimits) := by
  rcases h with h | h <;> simp [set_target_temperature, h]

/-- Witness for C6 at the in-flight example state and the out-of-range
value 30. -/
theorem set_target_temperature_rejects_outside_limits_witness :
    ((30 : ℚ) < -65 ∨ (30 : ℚ) > 25) ∧
    set_target_temperature cameraStateExample (some 30) true =
      (cameraStateExample, [], CommandStatus.TemperatureOutsideLimits) :=
  ⟨Or.inr (by norm_num),
   set_target_temperature_rejects_outside_limits cameraStateExample 30 true
     (Or.inr (by norm_num))⟩

/-- C5 (code bug): with the stored cooler set point at -20,
`set_target_temperature (some 0)` issues `TEMP:SENS:SET -20` — the
stale stored set point, not the requested value 0 — before enabling the
cooler, even though it then stores 0 and reports `Succeeded`.  The
source formats `self._cooler_setpoint` instead of `temperature` on line
433. -/
theorem set_target_temperature_sends_stale_setpoint :
    set_target_temperature cameraStateExample (some 0) true =
      ({ cameraStateExample with coolerSetpoint := some 0 },
       [SerialMsg.tempSet (some (-20)), SerialMsg.tecEnableOn],
       CommandStatus.Succeeded) ∧
    cameraStateExample.coolerSetpoint = some (-20) ∧
    SerialMsg.tempSet (some (-20)) ≠ SerialMsg.tempSet (some 0) := by
  refine ⟨rfl, rfl, by decide⟩

/-- C8 amended: when the camera is acquiring and not already stopping,
`stop_sequence` sets the stop flag, resets the sequence frame count to
zero, changes nothing else and returns `Succeeded`; otherwise it
returns `CameraNotAcquiring` with no side effects. -/
theorem stop_sequence_spec (s : CameraState) :
    (s.acquiring = true → s.stopAcquisition = false →
      stop_sequence s =
        ({ s with stopAcquisition := true, sequenceFrameCount := 0 },
         CommandStatus.Succeeded)) ∧
    (s.acquiring = false ∨ s.stopAcquisition = true →
      stop_sequence s = (s, CommandStatus.CameraNotAcquiring)) := by
  constructor
  · intro ha hs
    simp [stop_sequence, ha, hs]
  · intro h
    rcases h with h | h <;> simp [stop_sequence, h]

/-- Witness for C8's amended theorem at the acquiring example state. -/
theorem stop_sequence_spec_witness :
    stop_sequence cameraStateExample =
      ({ cameraStateExample with stopAcquisition := true, sequenceFrameCount := 0 },
       CommandStatus.Succeeded) :=
  (stop_sequence_spec cameraStateExample).1 rfl rfl

/-- C8 counterexample: at the example state with five frames acquired,
`stop_sequence` succeeds but zeroes `_sequence_frame_count` (line 495),
so the frame count is not left unchanged as claimed. -/
theorem stop_sequence_resets_count_counterexample :
    cameraStateExample.acquiring = true ∧
    cameraStateExample.stopAcquisition = false ∧
    cameraStateExample.sequenceFrameCount = 5 ∧
    (stop_sequence cameraStateExample).2 = CommandStatus.Succeeded ∧
    (stop_sequence cameraStateExample).1.sequenceFrameCount = 0 :=
  ⟨rfl, rfl, rfl, rfl, rfl⟩

/-- C10: whenever `start_sequence` succeeds (the camera was not
acquiring) it resets the shared processing stop signal to false —
clearing any fatal-stop raised by a worker — as well as the stop flag
and the sequence counters, before launching the capture loop. -/
theorem start_sequence_resets_processing_stop_signal (s : CameraState) (count : Nat)
    (h : s.acquiring = false) :
    (start_sequence s count).2 = CommandStatus.Succeeded ∧
    (start_sequence s count).1.processingStopSignal = false ∧
    (start_sequence s count).1.stopAcquisition = false ∧
    (start_sequence s count).1.sequenceFrameLimit = count ∧
    (start_sequence s count).1.sequenceFrameCount = 0 := by
  simp [start_sequence, h]

/-- Witness for C10 at an idle state whose processing stop signal is
still raised from an earlier worker failure. -/
theorem start_sequence_resets_processing_stop_signal_witness :
    (start_sequence
        { cameraStateExample with acquiring := false, processingStopSignal := true }
        3).2 = CommandStatus.Succeeded ∧
    (start_sequence
        { cameraStateExample with acquiring := false, processingStopSignal := true }
        3).1.processingStopSignal = false ∧
    (start_sequence
        { cameraStateExample with acquiring := false, processingStopSignal := true }
        3).1.stopAcquisition = false ∧
    (start_sequence
        { cameraStateExample with acquiring := false, processingStopSignal := true }
        3).1.sequenceFrameLimit = 3 ∧
    (start_sequence
        { cameraStateExample with acquiring := false, processingStopSignal := true }
        3).1.sequenceFrameCount = 0 :=
  start_sequence_resets_processing_stop_signal
    { cameraStateExample with acquiring := false, processingStopSignal := true } 3 rfl

/-- C1 (code bug): one capture iteration with a failed `pxd_readushort`
pops offset 0 from the free queue and then `continue`s (line 278)
without returning it to the free queue or pushing it into the
processing queue, so afterwards only one of the two pool offsets has an
owner: the conservation sum drops from N = 2 to 1 while the loop keeps
running. -/
theorem readout_failure_leaks_pool_offset :
    (poolOffsets sysStateExample).length = 2 ∧
    0 ∈ poolOffsets sysStateExample ∧
    poolOffsets (captureIter 0 sysStateExample readoutFailEnv) = [9216] ∧
    (poolOffsets (captureIter 0 sysStateExample readoutFailEnv)).length = 1 ∧
    0 ∉ poolOffsets (captureIter 0 sysStateExample readoutFailEnv) ∧
    loopDone (captureIter 0 sysStateExample readoutFailEnv) = false := by
  decide

/-- Each worker iteration only ever appends to the set of durably
written files; it never deletes or rewrites one. -/
theorem workerIter_savedFiles_extend (camId : List Char) (s : SysState) (env : WorkerEnv) :
    ∃ l, (workerIter camId s env).savedFiles = s.savedFiles ++ l := by
  unfold workerIter
  rcases hq : s.processing with _ | ⟨frame, rest⟩
  · exact ⟨[], by simp⟩
  · cases hs : env.saveOk with
    | false => exact ⟨[], by simp [hs]⟩
    | true =>
      cases hh : env.handoffOk with
      | false => exact ⟨[fitsFilename camId frame.exposureCount], by simp [hs, hh]⟩
      | true => exact ⟨[fitsFilename camId frame.exposureCount], by simp [hs, hh]⟩

/-- Any number of worker iterations only ever appends to the set of
durably written files. -/
theorem workerLoop_savedFiles_extend (camId : List Char) (fuel : Nat) :
    ∀ (s : SysState) (envs : List WorkerEnv),
    ∃ l, (workerLoop camId fuel s envs).savedFiles = s.savedFiles ++ l := by
  induction fuel with
  | zero => exact fun s envs => ⟨[], by simp [workerLoop]⟩
  | succ n ih =>
    intro s envs
    obtain ⟨l1, h1⟩ := workerIter_savedFiles_extend camId s (envs.headD ⟨true, true⟩)
    obtain ⟨l2, h2⟩ := ih (workerIter camId s (envs.headD ⟨true, true⟩)) envs.tail
    exact ⟨l1 ++ l2, by simp only [workerLoop]; rw [h2, h1, List.append_assoc]⟩

/-- C9: when the durable write succeeded and the downstream pipeline
handoff then fails, the worker sets the shared stop signal, but the
file it just saved stays in place (it is still there after any number
of further iterations), the slot offset is already back in the free
queue, and the worker moves on to the next queued frame. -/
theorem handoff_failure_keeps_saved_file (camId : List Char) (s : SysState)
    (env : WorkerEnv) (frame : FrameRecord) (rest : List FrameRecord)
    (fuel : Nat) (envs2 : List WorkerEnv)
    (hq : s.processing = frame :: rest) (hsave : env.saveOk = true)
    (hhand : env.handoffOk = false) :
    (workerIter camId s env).stopSignal = true ∧
    (workerIter camId s env).savedFiles =
      s.savedFiles ++ [fitsFilename camId frame.exposureCount] ∧
    (workerIter camId s env).processing = rest ∧
    (workerIter camId s env).freeQueue = s.freeQueue ++ [frame.dataOffset] ∧
    (s.savedFiles ++ [fitsFilename camId frame.exposureCount]) <+:
      (workerLoop camId fuel (workerIter camId s env) envs2).savedFiles := by
  have hbase : (workerIter camId s env).savedFiles =
      s.savedFiles ++ [fitsFilename camId frame.exposureCount] := by
    simp [workerIter, hq, hsave, hhand]
  refine ⟨by simp [workerIter, hq, hsave, hhand], hbase,
    by simp [workerIter, hq, hsave, hhand],
    by simp [workerIter, hq, hsave, hhand], ?_⟩
  obtain ⟨l, hl⟩ := workerLoop_savedFiles_extend camId fuel (workerIter camId s env) envs2
  exact ⟨l, by rw [hl, hbase]⟩

/-- Witness for C9: the example queued frame, a successful save, a
failed handoff, and one further loop iteration. -/
theorem handoff_failure_keeps_saved_file_witness :
    (workerIter camIdExample workerSysExample ⟨true, false⟩).stopSignal = true ∧
    (workerIter camIdExample workerSysExample ⟨true, false⟩).savedFiles =
      workerSysExample.savedFiles ++ [fitsFilename camIdExample 42] ∧
    (workerIter camIdExample workerSysExample ⟨true, false⟩).processing = [] ∧
    (workerIter camIdExample workerSysExample ⟨true, false⟩).freeQueue =
      workerSysExample.freeQueue ++ [0] ∧
    (workerSysExample.savedFiles ++ [fitsFilename camIdExample 42]) <+:
      (workerLoop camIdExample 1 (workerIter camIdExample workerSysExample ⟨true, false⟩)
        [⟨true, true⟩]).savedFiles :=
  handoff_failure_keeps_saved_file camIdExample workerSysExample ⟨true, false⟩
    ⟨0, 42⟩ [] 1 [⟨true, true⟩] rfl rfl rfl

/-- Once a stop has been observed, the capture loop's condition fails
and further fuel changes nothing. -/
theorem captureLoop_of_done (limit fuel : Nat) (s : SysState) (envs : List IterEnv)
    (h : (s.stopAcq || s.stopSignal) = true) :
    captureLoop limit fuel s envs = s := by
  cases fuel with
  | zero => rfl
  | succ n => simp only [captureLoop, h, if_true]

/-- A benign run of the capture loop with a nonzero frame limit: with no
external stop, no worker failure, all readouts succeeding and enough
free slots, the loop acquires exactly the missing `limit - frameCount`
frames, pushes one record per frame, and sets the stop flag itself. -/
theorem captureLoop_benign_run (limit : Nat) (fuel : Nat) :
    ∀ (s : SysState) (envs : List IterEnv), 0 < limit →
    s.stopAcq = false → s.stopSignal = false →
    s.frameCount < limit →
    (∀ e ∈ envs, e = IterEnv.benign) →
    limit - s.frameCount ≤ fuel →
    limit - s.frameCount ≤ s.freeQueue.length →
    (captureLoop limit fuel s envs).frameCount = limit ∧
    (captureLoop limit fuel s envs).stopAcq = true ∧
    (captureLoop limit fuel s envs).stopSignal = false ∧
    (captureLoop limit fuel s envs).processing.length =
      s.processing.length + (limit - s.frameCount) := by
  induction fuel with
  | zero =>
    intro s envs hlim hA hS hfc henv hfuel hfree
    omega
  | succ n ih =>
    intro s envs hlim hA hS hfc henv hfuel hfree
    have henv0 : envs.headD IterEnv.benign = IterEnv.benign := by
      cases envs with
      | nil => rfl
      | cons e es => exact henv e (List.mem_cons_self e es)
    obtain ⟨off, rest, hq⟩ : ∃ off rest, s.freeQueue = off :: rest := by
      cases hq : s.freeQueue with
      | nil => rw [hq] at hfree; simp at hfree; omega
      | cons a l => exact ⟨a, l, rfl⟩
    have hcond : (s.stopAcq || s.stopSignal) = false := by rw [hA, hS]; rfl
    have hql : rest.length + 1 = s.freeQueue.length := by rw [hq]; rfl
    by_cases hdone : limit ≤ s.frameCount + 1
    · have hiter : captureIter limit s (envs.headD IterEnv.benign) =
          { s with freeQueue := rest,
                   processing := s.processing ++ [⟨off, s.exposureCount⟩],
                   frameCount := s.frameCount + 1,
                   exposureCount := s.exposureCount + 1,
                   stopAcq := true } := by
        rw [henv0]
        simp [captureIter, hq, hA, hS, IterEnv.benign, hlim, hdone]
      have hstep : captureLoop limit (n + 1) s envs =
          captureLoop limit n (captureIter limit s (envs.headD IterEnv.benign)) envs.tail := by
        simp [captureLoop, hcond]
      rw [hstep, hiter, captureLoop_of_done _ _ _ _ (by simp)]
      refine ⟨by simp; omega, rfl, hS, ?_⟩
      simp
      omega
    · have hiter : captureIter limit s (envs.headD IterEnv.benign) =
          { s with freeQueue := rest,
                   processing := s.processing ++ [⟨off, s.exposureCount⟩],
                   frameCount := s.frameCount + 1,
                   exposureCount := s.exposureCount + 1 } := by
        rw [henv0]
        simp [captureIter, hq, hA, hS, IterEnv.benign, hdone]
      have hstep : captureLoop limit (n + 1) s envs =
          captureLoop limit n (captureIter limit s (envs.headD IterEnv.benign)) envs.tail := by
        simp [captureLoop, hcond]
      rw [hstep, hiter]
      have := ih { s with freeQueue := rest,
                          processing := s.processing ++ [⟨off, s.exposureCount⟩],
                          frameCount := s.frameCount + 1,
                          exposureCount := s.exposureCount + 1 }
        envs.tail hlim hA hS (by simp; omega)
        (fun e he => henv e (List.mem_of_mem_tail he))
        (by simp; omega) (by simp; omega)
      refine ⟨this.1, this.2.1, this.2.2.1, ?_⟩
      rw [this.2.2.2]
      simp
      omega

/-- One capture iteration preserves the frame-count invariant: with a
nonzero limit, the count never passes the limit, and reaching the limit
always comes with the stop flag, whatever the iteration's events. -/
theorem captureIter_count_invariant (limit : Nat) (s : SysState) (env : IterEnv)
    (hlim : 0 < limit) (hle : s.frameCount ≤ limit)
    (heq : s.frameCount = limit → s.stopAcq = true) :
    (captureIter limit s env).frameCount ≤ limit ∧
    ((captureIter limit s env).frameCount = limit →
      (captureIter limit s env).stopAcq = true) := by
  cases hq : s.freeQueue with
  | nil =>
    have hid : captureIter limit s env = s := by
      unfold captureIter
      rw [hq]
    rw [hid]
    exact ⟨hle, heq⟩
  | cons off rest =>
    cases hA : s.stopAcq with
    | true =>
      have hit : captureIter limit s env =
          { s with freeQueue := rest ++ [off], stopAcq := true,
                   stopSignal := s.stopSignal || env.externalSignal } := by
        simp [captureIter, hq, hA]
      rw [hit]
      exact ⟨hle, fun _ => rfl⟩
    | false =>
      have hfc : s.frameCount < limit := by
        rcases Nat.lt_or_ge s.frameCount limit with h | h
        · exact h
        · rw [heq (Nat.le_antisymm hle h)] at hA
          cases hA
      cases hES : env.externalStop with
      | true =>
        have hit : captureIter limit s env =
            { s with freeQueue := rest ++ [off], stopAcq := true,
                     stopSignal := s.stopSignal || env.externalSignal } := by
          simp [captureIter, hq, hA, hES]
        rw [hit]
        exact ⟨hle, fun _ => rfl⟩
      | false =>
        cases hSS : (s.stopSignal || env.externalSignal) with
        | true =>
          have hit : captureIter limit s env =
              { s with freeQueue := rest ++ [off], stopAcq := false,
                       stopSignal := true } := by
            simp [captureIter, hq, hA, hES, hSS]
          rw [hit]
          exact ⟨hle, fun hc => absurd hc (by simp; omega)⟩
        | false =>
          have hS : s.stopSignal = false := by
            rcases Bool.or_eq_false_iff.mp hSS with ⟨h1, h2⟩
            exact h1
          have hSE : env.externalSignal = false := by
            rcases Bool.or_eq_false_iff.mp hSS with ⟨h1, h2⟩
            exact h2
          cases hro : env.readoutOk with
          | false =>
            have hit : captureIter limit s env =
                { s with freeQueue := rest, stopAcq := false,
                         stopSignal := false } := by
              simp [captureIter, hq, hA, hES, hS, hSE, hro]
            rw [hit]
            exact ⟨hle, fun hc => absurd hc (by simp; omega)⟩
          | true =>
            by_cases hd : limit ≤ s.frameCount + 1
            · have hit : captureIter limit s env =
                  { s with freeQueue := rest,
                           processing := s.processing ++ [⟨off, s.exposureCount⟩],
                           frameCount := s.frameCount + 1,
                           exposureCount := s.exposureCount + 1,
                           stopAcq := true } := by
                simp [captureIter, hq, hA, hES, hS, hSE, hro, hlim, hd]
              rw [hit]
              exact ⟨by simp; omega, fun _ => rfl⟩
            · have hit : captureIter limit s env =
                  { s with freeQueue := rest,
                           processing := s.processing ++ [⟨off, s.exposureCount⟩],
                           frameCount := s.frameCount + 1,
                           exposureCount := s.exposureCount + 1 } := by
                simp [captureIter, hq, hA, hES, hS, hSE, hro, hd]
              rw [hit]
              refine ⟨by simp; omega, fun hc => absurd hc (by simp; omega)⟩

/-- The frame-count invariant holds after any number of capture-loop
iterations under arbitrary events. -/
theorem captureLoop_count_invariant (limit : Nat) (fuel : Nat) :
    ∀ (s : SysState) (envs : List IterEnv), 0 < limit →
    s.frameCount ≤ limit → (s.frameCount = limit → s.stopAcq = true) →
    (captureLoop limit fuel s envs).frameCount ≤ limit := by
  induction fuel with
  | zero => exact fun s envs _ hle _ => hle
  | succ n ih =>
    intro s envs hlim hle heq
    by_cases hc : (s.stopAcq || s.stopSignal) = true
    · rw [captureLoop_of_done _ _ _ _ hc]
      exact hle
    · have hcf : (s.stopAcq || s.stopSignal) = false := by
        cases h : (s.stopAcq || s.stopSignal) with
        | false => rfl
        | true => exact absurd h hc
      have hstep : captureLoop limit (n + 1) s envs =
          captureLoop limit n (captureIter limit s (envs.headD IterEnv.benign)) envs.tail := by
        simp [captureLoop, hcf]
      rw [hstep]
      obtain ⟨h1, h2⟩ :=
        captureIter_count_invariant limit s (envs.headD IterEnv.benign) hlim hle heq
      exact ih _ envs.tail hlim h1 h2

/-- With a frame limit of zero and no external stop request or worker
failure, one capture iteration never raises either stop flag itself. -/
theorem captureIter_no_self_stop (s : SysState) (env : IterEnv)
    (hA : s.stopAcq = false) (hS : s.stopSignal = false)
    (hES : env.externalStop = false) (hSS : env.externalSignal = false) :
    (captureIter 0 s env).stopAcq = false ∧ (captureIter 0 s env).stopSignal = false := by
  cases hq : s.freeQueue with
  | nil =>
    have hid : captureIter 0 s env = s := by
      unfold captureIter
      rw [hq]
    rw [hid]
    exact ⟨hA, hS⟩
  | cons off rest =>
    cases hro : env.readoutOk with
    | false =>
      have hit : captureIter 0 s env =
          { s with freeQueue := rest, stopAcq := false, stopSignal := false } := by
        simp [captureIter, hq, hA, hS, hES, hSS, hro]
      rw [hit]
      exact ⟨rfl, rfl⟩
    | true =>
      have hit : captureIter 0 s env =
          { s with freeQueue := rest,
                   processing := s.processing ++ [⟨off, s.exposureCount⟩],
                   frameCount := s.frameCount + 1,
                   exposureCount := s.exposureCount + 1 } := by
        simp [captureIter, hq, hA, hS, hES, hSS, hro]
      rw [hit]
      exact ⟨hA, hS⟩

/-- With a frame limit of zero the capture loop runs until an external
stop arrives: under benign events it never observes a stop on its own. -/
theorem captureLoop_zero_limit_runs (fuel : Nat) :
    ∀ (s : SysState) (envs : List IterEnv),
    s.stopAcq = false → s.stopSignal = false →
    (∀ e ∈ envs, e.externalStop = false ∧ e.externalSignal = false) →
    loopDone (captureLoop 0 fuel s envs) = false := by
  induction fuel with
  | zero =>
    intro s envs hA hS henv
    simp [captureLoop, loopDone, hA, hS]
  | succ n ih =>
    intro s envs hA hS henv
    have henv0 : (envs.headD IterEnv.benign).externalStop = false ∧
        (envs.headD IterEnv.benign).externalSignal = false := by
      cases envs with
      | nil => exact ⟨rfl, rfl⟩
      | cons e es => exact henv e (List.mem_cons_self e es)
    have hstep : captureLoop 0 (n + 1) s envs =
        captureLoop 0 n (captureIter 0 s (envs.headD IterEnv.benign)) envs.tail := by
      simp [captureLoop, hA, hS]
    rw [hstep]
    obtain ⟨h1, h2⟩ := captureIter_no_self_stop s (envs.headD IterEnv.benign)
      hA hS henv0.1 henv0.2
    exact ih _ envs.tail h1 h2 (fun e he => henv e (List.mem_of_mem_tail he))

/-- A capture iteration that pops a slot while `stop_sequence` has set
the stop flag terminates the loop. -/
theorem captureIter_observes_stop (limit : Nat) (s : SysState) (env : IterEnv)
    (hq : s.freeQueue ≠ []) (hstop : env.externalStop = true) :
    loopDone (captureIter limit s env) = true := by
  cases hql : s.freeQueue with
  | nil => exact absurd hql hq
  | cons off rest =>
    have hit : captureIter limit s env =
        { s with freeQueue := rest ++ [off], stopAcq := true,
                 stopSignal := s.stopSignal || env.externalSignal } := by
      simp [captureIter, hql, hstop]
    rw [hit]
    simp [loopDone]

/-- C2: with a nonzero limit and a benign run (no external stop, no
worker failure, successful readouts, enough free slots), the capture
loop submits exactly `limit` frame records and sets the stop flag
itself; the frame count never exceeds a nonzero limit at any point,
whatever the events; and with limit 0 the loop never stops on its own —
it runs until an iteration observes a stop request or the processing
stop signal. -/
theorem capture_loop_sequence_limit (limit fuel : Nat) (s : SysState)
    (envs : List IterEnv) :
    (0 < limit → s.stopAcq = false → s.stopSignal = false →
      s.frameCount = 0 → s.processing = [] →
      (∀ e ∈ envs, e = IterEnv.benign) →
      limit ≤ fuel → limit ≤ s.freeQueue.length →
      (captureLoop limit fuel s envs).frameCount = limit ∧
      (captureLoop limit fuel s envs).processing.length = limit ∧
      (captureLoop limit fuel s envs).stopAcq = true) ∧
    (0 < limit → s.frameCount ≤ limit → (s.frameCount = limit → s.stopAcq = true) →
      (captureLoop limit fuel s envs).frameCount ≤ limit) ∧
    (limit = 0 → s.stopAcq = false → s.stopSignal = false →
      (∀ e ∈ envs, e.externalStop = false ∧ e.externalSignal = false) →
      loopDone (captureLoop limit fuel s envs) = false) ∧
    (∀ env : IterEnv, s.freeQueue ≠ [] → env.externalStop = true →
      loopDone (captureIter limit s env) = true) := by
  refine ⟨?_, ?_, ?_, ?_⟩
  · intro hlim hA hS hfc hproc henv hfuel hfree
    obtain ⟨h1, h2, h3, h4⟩ := captureLoop_benign_run limit fuel s envs hlim hA hS
      (by omega) henv (by omega) (by omega)
    refine ⟨h1, ?_, h2⟩
    rw [h4, hproc, hfc]
    simp
  · exact fun hlim hle heq => captureLoop_count_invariant limit fuel s envs hlim hle heq
  · intro hl hA hS henv
    subst hl
    exact captureLoop_zero_limit_runs fuel s envs hA hS henv
  · exact fun env hq hstop => captureIter_observes_stop limit s env hq hstop

/-- Witness for C2 at limit 2: from the example start state with two
free slots, three loop iterations acquire exactly two frames and stop. -/
theorem capture_loop_sequence_limit_witness :
    (captureLoop 2 3 sysStateExample []).frameCount = 2 ∧
    (captureLoop 2 3 sysStateExample []).processing.length = 2 ∧
    (captureLoop 2 3 sysStateExample []).stopAcq = true :=
  (capture_loop_sequence_limit 2 3 sysStateExample []).1 (by decide) rfl rfl rfl rfl
    (by intro e he; cases he) (by decide) (by decide)

/-- The uint16 left shift by 22 of any pixel word is zero: the shift
moves every bit of a 16-bit value past bit 15. -/
theorem u16_shiftLeft_22 (x : Nat) : u16 (u16 x <<< 22) = 0 := by
  unfold u16
  rw [Nat.shiftLeft_eq]
  have h : x % 2 ^ 16 * 2 ^ 22 = x % 2 ^ 16 * 2 ^ 6 * 2 ^ 16 := by ring
  rw [h, Nat.mul_mod_left]

/-- C3 (code bug): line 68 computes on numpy uint16 scalars, so the
decoded second count always fits in 16 bits, the most significant
pixel word is discarded entirely (its uint16 shift by 22 is zero) and
the middle word wraps modulo 2^16.  At the word layout for epoch
second 1700000000 (words 1024, 1276, 405) the code yields 61696 — a
moment on 1970-01-01 — instead of the packed epoch value the claim
describes, and that truncated value is the base of the start time
written to the header. -/
theorem timestamp_decoding_truncated :
    (∀ p3 p4 p5 : Nat, decodeSeconds p3 p4 p5 < 2 ^ 16) ∧
    (∀ p3 p4 p5 q5 : Nat, decodeSeconds p3 p4 p5 = decodeSeconds p3 p4 q5) ∧
    405 * 2 ^ 22 + 1276 * 2 ^ 10 + 1024 / 4 = 1700000000 ∧
    decodeSeconds 1024 1276 405 = 61696 ∧
    decodeSeconds 1024 1276 405 ≠ 1700000000 ∧
    decodeDateStart 0 1024 1276 405 = 61696 := by
  refine ⟨?_, ?_, by norm_num, by decide, by decide, ?_⟩
  · intro p3 p4 p5
    apply Nat.or_lt_two_pow
    · apply Nat.or_lt_two_pow
      · exact Nat.mod_lt _ (by norm_num)
      · exact Nat.mod_lt _ (by norm_num)
    · calc u16 p3 >>> 2 ≤ u16 p3 := by
            rw [Nat.shiftRight_eq_div_pow]
            exact Nat.div_le_self _ _
        _ < 2 ^ 16 := Nat.mod_lt _ (by norm_num)
  · intro p3 p4 p5 q5
    unfold decodeSeconds
    rw [u16_shiftLeft_22, u16_shiftLeft_22]
  · have h : decodeSeconds 1024 1276 405 = 61696 := by decide
    unfold decodeDateStart
    rw [h]
    norm_num

/-- Whenever the poll loop returns a response, that response ends with
the prompt terminator `'>'`. -/
theorem serialPoll_ends_with_prompt (fuel : Nat) :
    ∀ (acc : List Char) (chunks : List (List Char)) (r : List Char),
    serialPoll acc chunks fuel = some r → r.getLast? = some '>' := by
  induction fuel with
  | zero => intro acc chunks r h; cases h
  | succ n ih =>
    intro acc chunks r h
    simp only [serialPoll] at h
    split at h
    · rename_i hcond
      cases h
      exact hcond.2
    · exact ih _ _ _ h

/-- If the prompt terminator never arrives in any chunk, the poll loop
times out. -/
theorem serialPoll_no_prompt_times_out (fuel : Nat) :
    ∀ (acc : List Char) (chunks : List (List Char)),
    (∀ ch ∈ chunks, '>' ∉ ch) → '>' ∉ acc →
    serialPoll acc chunks fuel = none := by
  induction fuel with
  | zero => intro acc chunks _ _; rfl
  | succ n ih =>
    intro acc chunks hch hacc
    have hc : '>' ∉ chunks.headD [] := by
      cases chunks with
      | nil => simp
      | cons ch rest => exact hch ch (List.mem_cons_self ch rest)
    have hacc2 : '>' ∉ acc ++ chunks.headD [] := by
      intro hmem
      rcases List.mem_append.mp hmem with h | h
      · exact hacc h
      · exact hc h
    simp only [serialPoll]
    rw [if_neg]
    · exact ih _ chunks.tail
        (fun ch h => hch ch (List.mem_of_mem_tail h)) hacc2
    · rintro ⟨-, hl⟩
      exact hacc2 (List.mem_of_mem_getLast? hl)

/-- C4 counterexample: for the command `A` and the accumulated response
`A\r\r>` the second line after splitting is empty, yet `_serial_command`
returns it as the (empty) value instead of the claimed no-return-value
result; the no-return-value branch is taken for a second line equal to
the prompt `>`, which is not empty. -/
theorem serial_empty_second_line_counterexample :
    splitCR ['A', '\r', '\r', '>'] = [['A'], [], ['>']] ∧
    serialClassify commandA ['A', '\r', '\r', '>'] = SerialResult.value [] ∧
    SerialResult.value [] ≠ SerialResult.noValue ∧
    serialCommand commandA [['A', '\r', '\r', '>']] 2 = SerialResult.value [] ∧
    serialClassify commandA ['A', '\r', '>'] = SerialResult.noValue ∧
    (['>'] : List Char) ≠ ([] : List Char) := by
  decide

/-- C4 amended: after splitting the accumulated response on carriage
returns, a first line differing from the sent command is an echo
mismatch; otherwise a second line equal to the prompt `>` is the
no-return-value result, a second line starting with `ERR:` is a device
error, and any other second line is returned as the value; and if the
prompt terminator never arrives the call times out, while any response
the poll loop does deliver ends with the prompt. -/
theorem serial_command_spec (command response first second : List Char)
    (rest : List (List Char)) (chunks : List (List Char)) (fuel : Nat) :
    (splitCR response = first :: second :: rest →
      (first ≠ command → serialClassify command response = SerialResult.echoMismatch first) ∧
      (first = command → second = ['>'] →
        serialClassify command response = SerialResult.noValue) ∧
      (first = command → second ≠ ['>'] → listStartsWith errMarker second = true →
        serialClassify command response = SerialResult.deviceError second) ∧
      (first = command → second ≠ ['>'] → listStartsWith errMarker second = false →
        serialClassify command response = SerialResult.value second)) ∧
    ((∀ ch ∈ chunks, '>' ∉ ch) → serialCommand command chunks fuel = SerialResult.timeout) ∧
    (∀ r, serialPoll [] chunks fuel = some r → r.getLast? = some '>') := by
  refine ⟨?_, ?_, fun r h => serialPoll_ends_with_prompt fuel [] chunks r h⟩
  · intro hsplit
    unfold serialClassify
    rw [hsplit]
    refine ⟨fun hne => ?_, fun he hp => ?_, fun he hp herr => ?_, fun he hp herr => ?_⟩
    · simp [hne]
    · simp [he, hp]
    · simp [he, hp, herr]
    · simp [he, hp, herr]
  · intro hch
    unfold serialCommand
    rw [serialPoll_no_prompt_times_out fuel [] chunks hch (by simp)]

/-- Witness for C4's amended theorem: a value response and a timeout. -/
theorem serial_command_spec_witness :
    serialClassify commandA ['A', '\r', 'O', 'K', '\r', '>'] = SerialResult.value ['O', 'K'] ∧
    serialCommand commandA [] 5 = SerialResult.timeout :=
  ⟨((serial_command_spec commandA ['A', '\r', 'O', 'K', '\r', '>'] ['A'] ['O', 'K']
      [['>']] [] 5).1 (by decide)).2.2.2 rfl (by decide) (by decide),
   (serial_command_spec commandA [] ['A'] ['O', 'K'] [['>']] [] 5).2.1
     (by intro ch hch; cases hch)⟩

/-- C7 counterexample: with a healthy loop body, a timed-out
`SENS:TRIG OFF` exchange inside the `finally` cleanup propagates out of
`__run_exposure_sequence` — the cleanup runs outside the
`except Exception` handler, so the exception crosses the capture-loop
boundary instead of being caught and logged. -/
theorem cleanup_exception_crosses_boundary :
    runExposureSequence (Except.ok ())
      (Except.map (fun _ => ()) (serialResultToExc (serialCommand trigOffCommand [] 5)))
      (Except.ok ()) = Except.error PyErr.timeoutErr ∧
    (Except.error PyErr.timeoutErr : Except PyErr Unit) ≠ Except.ok () :=
  ⟨rfl, fun h => Except.noConfusion h⟩

/-- C7 amended: any exception raised in the capture-loop body is caught
by the `except Exception` handler and never propagates, but an
exception raised during the exit cleanup (the trigger-disable serial
exchange or the exposure-counter write) does cross the loop boundary:
the call raises exactly when the cleanup raises. -/
theorem capture_thread_exception_boundary (body trigOff saveCounts : Except PyErr Unit) :
    (captureCleanup trigOff saveCounts = Except.ok () →
      runExposureSequence body trigOff saveCounts = Except.ok ()) ∧
    (∀ e, runExposureSequence body trigOff saveCounts = Except.error e →
      captureCleanup trigOff saveCounts = Except.error e) := by
  constructor
  · intro hc
    unfold runExposureSequence tryExceptFinally
    rw [hc]
    cases body with
    | ok u => cases u; rfl
    | error e => rfl
  · intro e he
    cases hc : captureCleanup trigOff saveCounts with
    | error e2 =>
      unfold runExposureSequence tryExceptFinally at he
      rw [hc] at he
      injection he with h
      rw [h]
    | ok u =>
      unfold runExposureSequence tryExceptFinally at he
      rw [hc] at he
      cases body with
      | ok v => exact Except.noConfusion he
      | error eb => exact Except.noConfusion he

/-- Witness for C7's amended theorem: a body that raises an I/O error
with a clean cleanup returns normally — the body error is caught. -/
theorem capture_thread_exception_boundary_witness :
    runExposureSequence (Except.error PyErr.ioErr) (Except.ok ()) (Except.ok ()) =
      Except.ok () :=
  (capture_thread_exception_boundary (Except.error PyErr.ioErr)
    (Except.ok ()) (Except.ok ())).1 rfl
